import Mathlib

/-!
Verification of the daemonocle process-lifecycle library.

This file gives a shallow embedding of the parts of `daemonocle/core.py` and
`daemonocle/_utils.py` that the verified properties are about: the PID-file
store (`_read_pid_file` / `_write_pid_file`), the lifecycle actions `start`
and `stop`, the shutdown latch (`_shutdown`), the terminate handler and the
`exit` wrapper, the environment-setup sequence (`_setup_environment`),
uptime formatting (`format_elapsed_time`), worker exception handling
(`_run`), and action discovery (`list_actions`).

OS side effects (echoes, signals, forks, file operations) are recorded as an
explicit event trace; OS-call outcomes that the code branches on (process
liveness, failures of chdir/chroot/umask/setuid calls, ...) are supplied as
oracles.  Machine integers are modelled as `ℤ`/`ℕ` with explicit `% 256`
where Python masks with `& 0xff`; the float `seconds` argument of
`format_elapsed_time` is modelled as `ℚ`.
-/

/-- Model of `daemonocle._utils.exit`: Python `sys.exit` wrapper.  For an
integer status, a negative value `-n` becomes `0x80 - (-n) = 0x80 + n`, and
the result is masked with `& 0xff` (for a nonnegative integer the mask is
`% 256`). -/
def pyExitStatus (status : ℤ) : ℤ :=
  let s := if status < 0 then 0x80 - status else status
  s % 256

/-- Characters stripped by Python `int(str)` before parsing (the whitespace
set of `str.strip`, restricted to ASCII). -/
def isPySpace (c : Char) : Bool :=
  c = ' ' || c = '\t' || c = '\n' || c = '\r' || c = '\x0b' || c = '\x0c'

/-- Numeric value of an ASCII digit character. -/
def digitVal (c : Char) : ℕ := c.toNat - 48

/-- Parse a nonempty all-digit character list as a natural number, the way
Python `int` reads the digit part of its argument. -/
def parseDigits (cs : List Char) : Option ℕ :=
  if cs ≠ [] ∧ cs.all Char.isDigit then
    some (cs.foldl (fun a c => 10 * a + digitVal c) 0)
  else none

/-- Strip leading and trailing whitespace, as Python `int` does with a
string argument. -/
def pyStrip (cs : List Char) : List Char :=
  ((cs.dropWhile isPySpace).reverse.dropWhile isPySpace).reverse

/-- Model of Python `int(s)` on a string: strip whitespace, allow one
optional sign, then require a nonempty run of digits; anything else is a
`ValueError`, modelled as `none`. -/
def pyIntParse (cs : List Char) : Option ℤ :=
  match pyStrip cs with
  | [] => none
  | c :: rest =>
    if c = '-' then (parseDigits rest).map (fun n => -(n : ℤ))
    else if c = '+' then (parseDigits rest).map (fun n => (n : ℤ))
    else (parseDigits (c :: rest)).map (fun n => (n : ℤ))

/-- Fuel-driven recursion for `decRepr`; the fuel only needs to exceed the
number being printed, which `decRepr` arranges. -/
def decReprAux : ℕ → ℕ → List Char
  | 0, _ => []
  | fuel + 1, n =>
    if n < 10 then [Nat.digitChar n]
    else decReprAux fuel (n / 10) ++ [Nat.digitChar (n % 10)]

/-- Decimal digit string of a natural number: the model of the `%d`
formatting used by `_write_pid_file` (`b'%d\n' % os.getpid()`). -/
def decRepr (n : ℕ) : List Char := decReprAux (n + 1) n

theorem decReprAux_fuel {f1 f2 n : ℕ} (h1 : n < f1) (h2 : n < f2) :
    decReprAux f1 n = decReprAux f2 n := by
  induction f1 generalizing f2 n with
  | zero => omega
  | succ f ih =>
    cases f2 with
    | zero => omega
    | succ g =>
      simp only [decReprAux]
      split
      · rfl
      · next h =>
        have hd : n / 10 < n := Nat.div_lt_self (by omega) (by omega)
        rw [@ih g (n / 10) (by omega) (by omega)]

/-- The natural unfolding of `decRepr`, mirroring repeated division by 10. -/
theorem decRepr_eq (n : ℕ) :
    decRepr n = if n < 10 then [Nat.digitChar n]
      else decRepr (n / 10) ++ [Nat.digitChar (n % 10)] := by
  have hstep : decRepr n = if n < 10 then [Nat.digitChar n]
      else decReprAux n (n / 10) ++ [Nat.digitChar (n % 10)] := rfl
  rw [hstep]
  split
  · rfl
  · next h =>
    have hd : n / 10 < n := Nat.div_lt_self (by omega) (by omega)
    rw [@decReprAux_fuel n (n / 10 + 1) (n / 10) hd (by omega)]
    rfl

theorem decRepr_ne_nil (n : ℕ) : decRepr n ≠ [] := by
  rw [decRepr_eq]
  split
  · simp
  · simp

theorem digitChar_isDigit {d : ℕ} (h : d < 10) : (Nat.digitChar d).isDigit = true := by
  interval_cases d <;> decide

theorem digitVal_digitChar {d : ℕ} (h : d < 10) : digitVal (Nat.digitChar d) = d := by
  interval_cases d <;> decide

theorem decRepr_all_digits (n : ℕ) : ∀ c ∈ decRepr n, c.isDigit = true := by
  induction n using Nat.strong_induction_on with
  | _ n ih =>
    rw [decRepr_eq]
    split
    · next h =>
      intro c hc
      simp only [List.mem_singleton] at hc
      exact hc ▸ digitChar_isDigit h
    · next h =>
      intro c hc
      rcases List.mem_append.mp hc with h1 | h2
      · exact ih (n / 10) (Nat.div_lt_self (by omega) (by omega)) c h1
      · simp only [List.mem_singleton] at h2
        exact h2 ▸ digitChar_isDigit (Nat.mod_lt _ (by omega))

theorem decRepr_foldl (n : ℕ) :
    (decRepr n).foldl (fun a c => 10 * a + digitVal c) 0 = n := by
  induction n using Nat.strong_induction_on with
  | _ n ih =>
    rw [decRepr_eq]
    split
    · next h =>
      simp [digitVal_digitChar h]
    · next h =>
      rw [List.foldl_append]
      rw [ih (n / 10) (Nat.div_lt_self (by omega) (by omega))]
      simp only [List.foldl_cons, List.foldl_nil]
      rw [digitVal_digitChar (Nat.mod_lt _ (by omega))]
      omega

theorem parseDigits_decRepr (n : ℕ) : parseDigits (decRepr n) = some n := by
  rw [parseDigits, if_pos]
  · rw [decRepr_foldl]
  · exact ⟨decRepr_ne_nil n, List.all_eq_true.mpr (decRepr_all_digits n)⟩

theorem isDigit_not_pySpace {c : Char} (h : c.isDigit = true) : isPySpace c = false := by
  rw [Char.isDigit] at h
  simp only [isPySpace, Bool.or_eq_false_iff, decide_eq_false_iff_not]
  refine ⟨⟨⟨⟨⟨?_, ?_⟩, ?_⟩, ?_⟩, ?_⟩, ?_⟩ <;>
    · intro hc
      subst hc
      simp at h

theorem dropWhile_of_no_space {l : List Char}
    (h : ∀ c ∈ l, isPySpace c = false) : l.dropWhile isPySpace = l := by
  cases l with
  | nil => rfl
  | cons c cs =>
    rw [List.dropWhile_cons, if_neg]
    simp [h c (by simp)]

theorem pyStrip_digits_newline {l : List Char} (hne : l ≠ [])
    (hd : ∀ c ∈ l, c.isDigit = true) : pyStrip (l ++ ['\n']) = l := by
  have hns : ∀ c ∈ l, isPySpace c = false :=
    fun c hc => isDigit_not_pySpace (hd c hc)
  obtain ⟨c, cs, rfl⟩ : ∃ c cs, l = c :: cs := by
    cases l with
    | nil => exact absurd rfl hne
    | cons c cs => exact ⟨c, cs, rfl⟩
  rw [pyStrip, List.cons_append, List.dropWhile_cons,
    if_neg (by simp [hns c (by simp)])]
  rw [show ((c :: (cs ++ ['\n'])).reverse = '\n' :: (c :: cs).reverse) by simp]
  rw [List.dropWhile_cons, if_pos (by decide)]
  rw [dropWhile_of_no_space (fun x hx => hns x (List.mem_reverse.mp hx))]
  exact List.reverse_reverse _

theorem digitChar_ne_sign {d : ℕ} (h : d < 10) :
    Nat.digitChar d ≠ '-' ∧ Nat.digitChar d ≠ '+' := by
  interval_cases d <;> exact ⟨by decide, by decide⟩

theorem decRepr_head_digit (n : ℕ) :
    ∃ c cs, decRepr n = c :: cs ∧ c.isDigit = true := by
  obtain ⟨c, cs, h⟩ : ∃ c cs, decRepr n = c :: cs := by
    cases hl : decRepr n with
    | nil => exact absurd hl (decRepr_ne_nil n)
    | cons c cs => exact ⟨c, cs, rfl⟩
  exact ⟨c, cs, h, decRepr_all_digits n c (by simp [h])⟩

/-- Round trip at the level of raw bytes: parsing the exact content written
by `_write_pid_file` (`b'%d\n' % pid`) with Python `int` recovers the PID. -/
theorem pyIntParse_decRepr (n : ℕ) :
    pyIntParse (decRepr n ++ ['\n']) = some (n : ℤ) := by
  obtain ⟨c, cs, hl, hc⟩ := decRepr_head_digit n
  have hstrip : pyStrip (decRepr n ++ ['\n']) = decRepr n :=
    pyStrip_digits_newline (decRepr_ne_nil n) (decRepr_all_digits n)
  have hsign : c ≠ '-' ∧ c ≠ '+' := by
    have hcn : 48 ≤ c.toNat ∧ c.toNat ≤ 57 := by
      rw [Char.isDigit] at hc
      simp only [Bool.and_eq_true, decide_eq_true_eq] at hc
      exact ⟨hc.1, hc.2⟩
    constructor <;> · intro hcc; subst hcc; simp at hcn
  rw [pyIntParse, hstrip, hl]
  simp only [hsign.1, hsign.2, if_false, ite_false]
  rw [← hl, parseDigits_decRepr]
  rfl

/-- Leading zeros: the decimal representation written to the PID file is
canonical (it is `"0"` for zero and never starts with `'0'` otherwise). -/
theorem decRepr_no_leading_zero (n : ℕ) :
    (n = 0 → decRepr n = ['0']) ∧ (n ≠ 0 → (decRepr n).head? ≠ some '0') := by
  constructor
  · rintro rfl; decide
  · intro hn
    induction n using Nat.strong_induction_on with
    | _ n ih =>
      rw [decRepr_eq]
      split
      · next h =>
        interval_cases n <;> simp_all <;> decide
      · next h =>
        obtain ⟨c, cs, hl, _⟩ := decRepr_head_digit (n / 10)
        rw [hl, List.cons_append, List.head?_cons]
        have := ih (n / 10) (Nat.div_lt_self (by omega) (by omega)) (by omega)
        rw [hl, List.head?_cons] at this
        simpa using this

/-- Side effects recorded while modelling the daemon's operations.  Echo
events carry the exact message text; `echoWarning`/`echoError` are the
diagnostic (STDERR) channel with the `WARNING: `/`ERROR: ` prefix implied,
and `echoOk`/`echoFailed` are the `OK`/`FAILED` progress markers. -/
inductive Event where
  | echo (msg : String)
  | echoOk
  | echoFailed
  | echoError (msg : String)
  | echoWarning (msg : String)
  | removePidFile
  | shutdownCallback (message : Option String) (code : ℤ)
  | closePidFile
  | setupEnvironment
  | detachProcess
  | writePid (pid : ℕ)
  | installTerminateHandlers
  | installForwardHandlers
  | forkAndSupervise
  | orphanProcess
  | runWorker
  | kill (pid : ℤ) (sig : ℕ)
  | waitForExit (pid : ℤ) (timeout : ℕ)
deriving DecidableEq

/-- The ambient OS state the PID-file store interacts with: the content of
the configured PID-file path (`none` = no such file) and the
`psutil.pid_exists` liveness oracle. -/
structure World where
  pidFileContent : Option (List Char)
  pidExists : ℤ → Bool

/-- The construction-time configuration of a `Daemon` object (the fields
the modelled operations consult). -/
structure DaemonConfig where
  name : String
  hasWorker : Bool
  pidFile : Option String
  stopTimeout : ℕ
  hasShutdownCallback : Bool
  chrootDir : Option String

/-- Model of `Daemon._read_pid_file`: `None` without a configured path or
without a file; a broken file warns, is removed and reads as `None`; a dead
PID removes the file silently; a live PID is returned with the file kept. -/
def readPidFile (cfg : DaemonConfig) (w : World) : Option ℤ × World × List Event :=
  match cfg.pidFile with
  | none => (none, w, [])
  | some path =>
    match w.pidFileContent with
    | none => (none, w, [])
    | some content =>
      match pyIntParse content with
      | none =>
        (none, { w with pidFileContent := none },
         [Event.echoWarning ("Empty or broken PID file " ++ path ++ "; removing"),
          Event.removePidFile])
      | some pid =>
        if w.pidExists pid then (some pid, w, [])
        else (none, { w with pidFileContent := none }, [Event.removePidFile])

/-- The bytes `_write_pid_file` writes: `b'%d\n' % pid`. -/
def writePidFileContent (pid : ℕ) : List Char := decRepr pid ++ ['\n']

/-- Model of `Daemon._write_pid_file`: create/truncate the PID file and
write the decimal PID plus newline. -/
def writePidFile (pid : ℕ) (w : World) : World :=
  { w with pidFileContent := some (writePidFileContent pid) }

/-- Removal of the PID file (`os.remove` / `_close_pid_file` effect on the
file's content). -/
def removePidFileFromWorld (w : World) : World := { w with pidFileContent := none }

/-- C2: `_read_pid_file` returns `None` when no `pid_file` is configured,
when the file is absent, when its contents do not parse as an integer (then
a warning is emitted and the file is deleted), or when the recorded PID is
not alive (then the file is deleted silently); it returns the recorded PID
exactly when that PID is alive. -/
theorem read_pid_file_spec (cfg : DaemonConfig) (w : World) :
    (cfg.pidFile = none → readPidFile cfg w = (none, w, [])) ∧
    (∀ path, cfg.pidFile = some path → w.pidFileContent = none →
      readPidFile cfg w = (none, w, [])) ∧
    (∀ path content, cfg.pidFile = some path → w.pidFileContent = some content →
      pyIntParse content = none →
      readPidFile cfg w = (none, removePidFileFromWorld w,
        [Event.echoWarning ("Empty or broken PID file " ++ path ++ "; removing"),
         Event.removePidFile])) ∧
    (∀ path content pid, cfg.pidFile = some path → w.pidFileContent = some content →
      pyIntParse content = some pid → w.pidExists pid = false →
      readPidFile cfg w = (none, removePidFileFromWorld w, [Event.removePidFile])) ∧
    (∀ path content pid, cfg.pidFile = some path → w.pidFileContent = some content →
      pyIntParse content = some pid → w.pidExists pid = true →
      readPidFile cfg w = (some pid, w, [])) := by
  refine ⟨?_, ?_, ?_, ?_, ?_⟩
  · intro h; rw [readPidFile, h]
  · intro path hp hc; rw [readPidFile, hp, hc]
  · intro path content hp hc hparse
    simp [readPidFile, hp, hc, hparse, removePidFileFromWorld]
  · intro path content pid hp hc hparse hdead
    simp [readPidFile, hp, hc, hparse, hdead, removePidFileFromWorld]
  · intro path content pid hp hc hparse halive
    simp [readPidFile, hp, hc, hparse, halive]

/-- A concrete configuration with a PID file, used to instantiate the
hypothesis-bearing theorems. -/
def cfgEx : DaemonConfig :=
  { name := "foo", hasWorker := true, pidFile := some "/tmp/foo.pid",
    stopTimeout := 10, hasShutdownCallback := false, chrootDir := none }

/-- A concrete world in which the PID file records the live PID 42. -/
def wLive : World :=
  { pidFileContent := some ['4', '2', '\n'], pidExists := fun p => decide (p = 42) }

/-- Witness for `read_pid_file_spec`: a concrete live-PID read. -/
theorem read_pid_file_spec_witness :
    pyIntParse ['4', '2', '\n'] = some 42 ∧
    readPidFile cfgEx wLive = (some 42, wLive, []) :=
  ⟨by decide,
   (read_pid_file_spec cfgEx wLive).2.2.2.2 "/tmp/foo.pid" ['4', '2', '\n'] 42
     rfl rfl (by decide) (by decide)⟩

/-- C4: writing the PID file produces exactly the decimal digits of the PID
followed by one newline; the digit part is all digits, has the numeric
value of the PID and no leading zero; reading the file back while the PID
is alive returns exactly that PID; and after the file is removed a read
returns `None`. -/
theorem pid_file_round_trip (p : ℕ) (cfg : DaemonConfig) (w : World) (path : String)
    (hp : cfg.pidFile = some path) (hlive : w.pidExists (p : ℤ) = true) :
    (writePidFile p w).pidFileContent = some (decRepr p ++ ['\n']) ∧
    (∀ c ∈ decRepr p, c.isDigit = true) ∧
    (decRepr p).foldl (fun a c => 10 * a + digitVal c) 0 = p ∧
    (p = 0 → decRepr p = ['0']) ∧
    (p ≠ 0 → (decRepr p).head? ≠ some '0') ∧
    readPidFile cfg (writePidFile p w) = (some (p : ℤ), writePidFile p w, []) ∧
    readPidFile cfg (removePidFileFromWorld w) =
      (none, removePidFileFromWorld w, []) := by
  refine ⟨rfl, decRepr_all_digits p, decRepr_foldl p,
    (decRepr_no_leading_zero p).1, (decRepr_no_leading_zero p).2, ?_, ?_⟩
  · exact (read_pid_file_spec cfg (writePidFile p w)).2.2.2.2 path
      (writePidFileContent p) (p : ℤ) hp rfl (pyIntParse_decRepr p) hlive
  · exact (read_pid_file_spec cfg (removePidFileFromWorld w)).2.1 path hp rfl

/-- Witness for `pid_file_round_trip` at PID 42. -/
theorem pid_file_round_trip_witness :
    cfgEx.pidFile = some "/tmp/foo.pid" ∧ wLive.pidExists (42 : ℤ) = true ∧
    readPidFile cfgEx (writePidFile 42 wLive) =
      (some (42 : ℤ), writePidFile 42 wLive, []) :=
  ⟨rfl, by decide,
   (pid_file_round_trip 42 cfgEx wLive "/tmp/foo.pid" rfl (by decide)).2.2.2.2.2.1⟩

/-- The mutable runtime state a `Daemon` instance carries
(`self._pid_fd`, `self._shutdown_complete`, and `self.detach`, which
`start(debug=True)` mutates). -/
structure DaemonState where
  pidFd : Option ℕ
  shutdownComplete : Bool
  detach : Bool

/-- Model of the slice of `Daemon.__init__` that initialises the runtime
state: `self._pid_fd = None`, `self._shutdown_complete = False`, and
`self.detach = detach and self._is_detach_necessary()` (the liveness of the
environment check is an oracle). -/
def initDaemonState (detachArg : Bool) (detachNecessary : Bool) : DaemonState :=
  { pidFd := none, shutdownComplete := false, detach := detachArg && detachNecessary }

/-- Model of `Daemon._shutdown(message, code)`.  The returned integer is
the argument handed to the `exit` wrapper (the process exit status is
`pyExitStatus` of it).  If the latch is already set, nothing is done apart
from exiting; otherwise the shutdown callback runs (when registered), the
PID file is closed and removed (when configured), and the latch is set. -/
def shutdown (cfg : DaemonConfig) (st : DaemonState) (message : Option String)
    (code : ℤ) : DaemonState × ℤ × List Event :=
  if st.shutdownComplete then (st, code, [])
  else
    ({ st with shutdownComplete := true }, code,
     (if cfg.hasShutdownCallback then [Event.shutdownCallback message code] else [])
       ++ (if cfg.pidFile.isSome then [Event.closePidFile] else []))

/-- Model of `Daemon._handle_terminate`: shut down with the message
`'Terminated by <name> (<number>)'` and code `-signal_number`.  The
signal-name table is an oracle `sigName`. -/
def handleTerminate (cfg : DaemonConfig) (st : DaemonState) (sigName : ℕ → String)
    (signalNumber : ℕ) : DaemonState × ℤ × List Event :=
  shutdown cfg st
    (some ("Terminated by " ++ sigName signalNumber ++ " (" ++
      toString signalNumber ++ ")"))
    (-(signalNumber : ℤ))

/-- The Python value carried by `SystemExit.code`: `None` from a bare
`exit()`, an `int`, or any other object (modelled by its string form). -/
inductive PyVal where
  | pyNone
  | pyInt (i : ℤ)
  | pyStr (s : String)
deriving DecidableEq

/-- Python `'{msg}'.format(msg=x)` on a `PyVal`. -/
def pyValFormat : PyVal → String
  | PyVal.pyNone => "None"
  | PyVal.pyInt i => toString i
  | PyVal.pyStr s => s

/-- How the worker call inside `Daemon._run` finishes. -/
inductive WorkerOutcome where
  | completes
  | sysExit (code : PyVal)
  | raises (cls : String) (msg : String)

/-- The observable outcome of `Daemon._run`: either `_shutdown` is invoked
with a message and exit code, or (non-detached only) the worker's exception
propagates unmodified. -/
inductive RunResult where
  | shutdownWith (message : String) (code : ℤ)
  | reraise (cls : String) (msg : String)
deriving DecidableEq

/-- Model of `Daemon._run`: run the worker; on `SystemExit` with a nonzero
integer code shut down with that code, with integer code 0 (or normal
completion) shut down normally with code 0, with a non-integer code shut
down with `'Exiting with message: <code>'` and code 1; on any other
exception shut down with a summary and code 1 when detached, and re-raise
when not detached. -/
def run (detach : Bool) (outcome : WorkerOutcome) : RunResult :=
  match outcome with
  | WorkerOutcome.completes => RunResult.shutdownWith "Shutting down normally" 0
  | WorkerOutcome.sysExit code =>
    match code with
    | PyVal.pyInt i =>
      if i ≠ 0 then
        RunResult.shutdownWith ("Exiting with non-zero exit code " ++ toString i) i
      else RunResult.shutdownWith "Shutting down normally" 0
    | _ =>
      RunResult.shutdownWith ("Exiting with message: " ++ pyValFormat code) 1
  | WorkerOutcome.raises cls msg =>
    if detach then
      RunResult.shutdownWith ("Dying due to unhandled " ++ cls ++ ": " ++ msg) 1
    else RunResult.reraise cls msg

/-- Outcomes of OS calls that `Daemon.start` branches on: the parent PID
and the two reload-wait outcomes, a `DaemonError` raised by
`_setup_environment`, whether this process is a parent that leaves
`_detach_process` with an exit code, and the PID / PID-file descriptor of
the daemon process. -/
structure StartOracle where
  ppid : ℕ
  orphanRaises : Bool
  ppidAliveAfterOrphan : Bool
  envError : Option String
  detachParentExit : Option ℤ
  currentPid : ℕ
  pidFd : ℕ

/-- How a call to `Daemon.start` ends: with a `DaemonError` propagating to
the caller, with a plain `return` (already-running no-op), with the process
exiting through the `exit` wrapper carrying the given code, or by reaching
the worker (whose run is summarised by a `RunResult`). -/
inductive StartResult where
  | raisedError (msg : String)
  | returned
  | exited (code : ℤ)
  | proceeded (result : RunResult)
deriving DecidableEq

/-- The tail of `Daemon.start` after the PID file is known to be free:
write the PID file (when configured), install the terminate handlers, echo
OK in foreground mode, and run the worker. -/
def startFinish (cfg : DaemonConfig) (st : DaemonState) (w : World) (o : StartOracle)
    (evs : List Event) (outcome : WorkerOutcome) :
    StartResult × DaemonState × World × List Event :=
  let st1 := if cfg.pidFile.isSome then { st with pidFd := some o.pidFd } else st
  let w1 := if cfg.pidFile.isSome then writePidFile o.currentPid w else w
  let evs1 := evs ++ (if cfg.pidFile.isSome then [Event.writePid o.currentPid] else [])
  let evs2 := evs1 ++ [Event.installTerminateHandlers]
  let evs3 := evs2 ++ (if st1.detach = false then [Event.echoOk] else [])
  (StartResult.proceeded (run st1.detach outcome), st1, w1, evs3 ++ [Event.runWorker])

/-- Model of `Daemon.start` from the `pid = self._read_pid_file()` check onward:
warn and return if a live PID is recorded; otherwise fork the foreground
supervisor (non-detached, non-reload), echo the progress line, set up the
environment, detach when requested, and finish via `startFinish`. -/
def startMain (cfg : DaemonConfig) (st : DaemonState) (w : World) (o : StartOracle)
    (reloadEnv : Bool) (outcome : WorkerOutcome) (evs0 : List Event) :
    StartResult × DaemonState × World × List Event :=
  let r := readPidFile cfg w
  match r.1 with
  | some pid =>
    (StartResult.returned, st, r.2.1,
     evs0 ++ r.2.2 ++
       [Event.echoWarning (cfg.name ++ " already running with PID " ++ toString pid)])
  | none =>
    let evs1 := evs0 ++ r.2.2 ++
      (if st.detach = false && reloadEnv = false then
        [Event.installForwardHandlers, Event.forkAndSupervise] else [])
    let evs2 := evs1 ++
      (if reloadEnv = false then [Event.echo ("Starting " ++ cfg.name ++ " ... ")]
       else [])
    let evs3 := evs2 ++ [Event.setupEnvironment]
    match o.envError with
    | some e => (StartResult.raisedError e, st, r.2.1, evs3)
    | none =>
      if st.detach then
        let evs4 := evs3 ++ [Event.detachProcess]
        match o.detachParentExit with
        | some code => (StartResult.exited code, st, r.2.1, evs4)
        | none => startFinish cfg st r.2.1 o evs4 outcome
      else startFinish cfg st r.2.1 o evs3 outcome

/-- Model of `Daemon.start(debug)`.  `reloadEnv` is the
`DAEMONOCLE_RELOAD` environment marker; the reload prologue orphans the
process and aborts with a shutdown if the previous daemon does not exit. -/
def start (cfg : DaemonConfig) (st : DaemonState) (w : World) (o : StartOracle)
    (debug : Bool) (reloadEnv : Bool) (outcome : WorkerOutcome) :
    StartResult × DaemonState × World × List Event :=
  if cfg.hasWorker = false then
    (StartResult.raisedError "No worker is defined for daemon", st, w, [])
  else
    let st1 := if debug then { st with detach := false } else st
    if reloadEnv then
      let evs := [Event.echo ("Reloading " ++ cfg.name ++ " ... "), Event.orphanProcess]
      if o.orphanRaises then
        (StartResult.raisedError "Parent did not exit while trying to orphan process",
         st1, w, evs)
      else if o.ppidAliveAfterOrphan then
        let msg := "Previous process (PID " ++ toString o.ppid ++
          ") did NOT exit during reload"
        let s := shutdown cfg st1 (some msg) 1
        (StartResult.exited s.2.1, s.1, w,
         evs ++ [Event.echoFailed, Event.echoError msg] ++ s.2.2)
      else startMain cfg st1 w o true outcome evs
    else startMain cfg st1 w o false outcome []

/-- Outcomes of the OS calls `Daemon.stop` makes: `OSError` messages from
the two `os.kill` calls (or `none` for success) and the two
`_pid_is_alive` poll results. -/
structure StopOracle where
  termKillError : Option String
  aliveAfterTerm : Bool
  killKillError : Option String
  aliveAfterKill : Bool

/-- How a call to `Daemon.stop` ends: `DaemonError` raised, normal return
(value 0), or process exit through `_maybe_exit` with the given code. -/
inductive StopResult where
  | raisedError (msg : String)
  | ok
  | exited (code : ℤ)
deriving DecidableEq

/-- Python `timeout = timeout or self.stop_timeout`: `None` (and a zero
timeout, which is falsy) fall back to the configured `stop_timeout`. -/
def effTimeout (timeout : Option ℕ) (stopTimeout : ℕ) : ℕ :=
  match timeout with
  | none => stopTimeout
  | some 0 => stopTimeout
  | some (k + 1) => k + 1

/-- Signal number of SIGTERM on Linux. -/
def SIGTERM : ℕ := 15

/-- Signal number of SIGKILL on Linux. -/
def SIGKILL : ℕ := 9

/-- Model of `Daemon.stop(timeout, force)` (non-multi mode, in which
`_maybe_exit` exits the process). -/
def stop (cfg : DaemonConfig) (w : World) (o : StopOracle) (timeout : Option ℕ)
    (force : Bool) : StopResult × World × List Event :=
  match cfg.pidFile with
  | none => (StopResult.raisedError "Cannot stop daemon without PID file", w, [])
  | some _ =>
    let r := readPidFile cfg w
    let w1 := r.2.1
    match r.1 with
    | none =>
      (StopResult.ok, w1,
       r.2.2 ++ [Event.echoWarning (cfg.name ++ " is not running")])
    | some pid =>
      let t := effTimeout timeout cfg.stopTimeout
      let evs := r.2.2 ++
        [Event.echo ("Stopping " ++ cfg.name ++ " ... "), Event.kill pid SIGTERM]
      match o.termKillError with
      | some e => (StopResult.exited 1, w1, evs ++ [Event.echoFailed, Event.echoError e])
      | none =>
        let evs := evs ++ [Event.waitForExit pid t]
        if o.aliveAfterTerm = false then (StopResult.ok, w1, evs ++ [Event.echoOk])
        else
          let evs := evs ++
            [Event.echoFailed,
             Event.echoError ("Timed out while waiting for process (PID " ++
               toString pid ++ ") to terminate")]
          if force = false then (StopResult.exited 1, w1, evs)
          else
            let evs := evs ++
              [Event.echo ("Killing " ++ cfg.name ++ " ... "), Event.kill pid SIGKILL]
            match o.killKillError with
            | some e =>
              (StopResult.exited 1, w1, evs ++ [Event.echoFailed, Event.echoError e])
            | none =>
              let evs := evs ++ [Event.waitForExit pid t]
              if o.aliveAfterKill = false then (StopResult.ok, w1, evs ++ [Event.echoOk])
              else
                (StopResult.exited 1, w1,
                 evs ++
                   [Event.echoFailed,
                    Event.echoError ("Process (PID " ++ toString pid ++
                      ") did not respond to SIGKILL for some reason")])

/-- Failure messages (or `none` for success) of the OS calls made by
`Daemon._setup_environment`, in order: `os.chdir`+`os.chroot` into the
chroot directory, `os.chdir` into the work directory, the
`os.makedirs`/`os.chown` calls of `_setup_dirs`, `os.umask`, and
`os.setgid`/`os.setuid`. -/
structure EnvOracle where
  chrootError : Option String
  chdirError : Option String
  setupDirsError : Option String
  umaskError : Option String
  setuidgidError : Option String

/-- An exception escaping `_setup_environment`: either a `DaemonError`
created by one of its `except` clauses, or a raw `OSError` that no clause
caught. -/
inductive PyError where
  | daemonError (msg : String)
  | osError (msg : String)
deriving DecidableEq

/-- Model of `Daemon._setup_environment` (with `_setup_dirs` inlined where
the source calls it).  Saving the working directory and
`_prevent_core_dump` are modelled as non-failing (the latter swallows its
only anticipated error itself).  Note that `_setup_dirs` has no
`try`/`except`, so its `OSError`s propagate raw. -/
def setup_environment (cfg : DaemonConfig) (o : EnvOracle) : Except PyError Unit :=
  match (if cfg.chrootDir.isSome then o.chrootError else none) with
  | some e =>
    Except.error (PyError.daemonError ("Unable to change root directory (" ++ e ++ ")"))
  | none =>
    match o.chdirError with
    | some e =>
      Except.error
        (PyError.daemonError ("Unable to change working directory (" ++ e ++ ")"))
    | none =>
      match o.setupDirsError with
      | some e => Except.error (PyError.osError e)
      | none =>
        match o.umaskError with
        | some e =>
          Except.error
            (PyError.daemonError ("Unable to change file creation mask (" ++ e ++ ")"))
        | none =>
          match o.setuidgidError with
          | some e =>
            Except.error
              (PyError.daemonError ("Unable to setuid or setgid (" ++ e ++ ")"))
          | none => Except.ok ()

/-- One attribute of a `Daemon` class as reflection sees it: its name,
whether it carries the `__daemonocle_exposed__` marker, and whether it is
callable. -/
structure ClassMethod where
  name : String
  exposed : Bool
  callable : Bool
deriving DecidableEq

/-- A `Daemon` subclass, as the list of its attributes in declaration
order (base-class built-ins first, as on the real class). -/
structure DaemonClass where
  methods : List ClassMethod

/-- Lexicographic comparison of char lists by code point, the ordering
Python string comparison and hence `sorted`/`dir` use. -/
def strLeAux : List Char → List Char → Bool
  | [], _ => true
  | _ :: _, [] => false
  | a :: as, b :: bs =>
    if a.toNat < b.toNat then true
    else if b.toNat < a.toNat then false
    else strLeAux as bs

/-- Python string `<=` by code points. -/
def strLe (a b : String) : Bool := strLeAux a.data b.data

/-- Model of `dir(cls)`: the class's attributes in alphabetical order of name. -/
def dirMethods (cls : DaemonClass) : List ClassMethod :=
  List.insertionSort (fun a b => strLe a.name b.name = true) cls.methods

/-- Model of `func_name.replace('_', '-')`. -/
def hyphenate (s : String) : String :=
  String.mk (s.data.map (fun c => if c = '_' then '-' else c))

/-- The built-in actions pre-seeded by `list_actions`. -/
def builtinActions : List String := ["start", "stop", "restart", "status"]

/-- Model of `Daemon.list_actions`: seed the four built-ins, then iterate
over `dir(cls)` appending the hyphenated name of every exposed callable
attribute not already present. -/
def list_actions (cls : DaemonClass) : List String :=
  (dirMethods cls).foldl
    (fun actions m =>
      if m.callable && m.exposed then
        (if hyphenate m.name ∈ actions then actions
         else actions ++ [hyphenate m.name])
      else actions)
    builtinActions

/-- Append an element only if absent (the dedup step of `list_actions`). -/
def appendNew (acc : List String) (x : String) : List String :=
  if x ∈ acc then acc else acc ++ [x]

/-- Modelled from the claim's wording (not the source): built-ins first,
then the exposed methods in *declaration* order, deduplicated. -/
def declarationOrderActions (cls : DaemonClass) : List String :=
  cls.methods.foldl
    (fun acc m =>
      if m.callable && m.exposed then appendNew acc (hyphenate m.name) else acc)
    builtinActions

/-- Keep the first occurrence of each element not already in `seen`. -/
def dedupAgainst (seen : List String) : List String → List String
  | [] => []
  | x :: xs =>
    if x ∈ seen then dedupAgainst seen xs
    else x :: dedupAgainst (seen ++ [x]) xs

/-- The hyphenated names of the exposed callable attributes in `dir`
(alphabetical) order. -/
def sortedExposedActions (cls : DaemonClass) : List String :=
  ((dirMethods cls).filter (fun m => m.callable && m.exposed)).map
    (fun m => hyphenate m.name)

/-- Model of Python's built-in `round` on a rational: round to the nearest
integer, ties to the even integer. -/
def pyRound (q : ℚ) : ℤ :=
  if q - ⌊q⌋ < 1/2 then ⌊q⌋
  else if q - ⌊q⌋ = 1/2 then (if ⌊q⌋ % 2 = 0 then ⌊q⌋ else ⌊q⌋ + 1)
  else ⌊q⌋ + 1

/-- The `divmod`-and-print part of `format_elapsed_time`, on the already
rounded total minutes.  Python `divmod` with a positive divisor is
Euclidean division, i.e. `Int` `/` and `%`. -/
def formatFromMinutes (totalMinutes : ℤ) : String :=
  let hours := totalMinutes / 60
  let minutes := totalMinutes % 60
  let result := toString minutes ++ "m"
  if hours ≠ 0 then
    let days := hours / 24
    let hoursR := hours % 24
    let result1 := toString hoursR ++ "h " ++ result
    if days ≠ 0 then toString days ++ "d " ++ result1 else result1
  else result

/-- Model of `daemonocle._utils.format_elapsed_time`: round the seconds to
whole minutes (`int(round(seconds / 60))`), then `divmod` out hours and
days, printing `"Nd Nh Nm"` with the hour part only when the total hours
are nonzero and the day part only when the days are nonzero. -/
def format_elapsed_time (seconds : ℚ) : String :=
  formatFromMinutes (pyRound (seconds / 60))

/-- Modelled from the claim's wording: with `m` the total minutes, print
`"<m>m"` below one hour, `"<h>h <m>m"` below one day, and
`"<d>d <h>h <m>m"` otherwise. -/
def specUptimeFormat (m : ℤ) : String :=
  if m < 60 then toString m ++ "m"
  else if m < 1440 then toString (m / 60) ++ "h " ++ toString (m % 60) ++ "m"
  else toString (m / 1440) ++ "d " ++ toString (m % 1440 / 60) ++ "h " ++
    toString (m % 60) ++ "m"

/-- A concrete daemon runtime state for witnesses. -/
def stEx : DaemonState := { pidFd := none, shutdownComplete := false, detach := true }

/-- C8: when the terminate handler runs for signal `n` (1 ≤ n ≤ 127), the
process exit status is `128 + n`, which no normal exit code in `0..127`
equals; and the `exit` wrapper maps a negative status `s` to
`(0x80 - s) & 0xff` and a nonnegative one to `s % 256`. -/
theorem signal_exit_status (cfg : DaemonConfig) (st : DaemonState)
    (sigName : ℕ → String) (n : ℕ) (h1 : 1 ≤ n) (h2 : n ≤ 127) :
    pyExitStatus (handleTerminate cfg st sigName n).2.1 = 128 + (n : ℤ) ∧
    (∀ c : ℤ, 0 ≤ c → c ≤ 127 → 128 + (n : ℤ) ≠ c) ∧
    (∀ s : ℤ, s < 0 → pyExitStatus s = (0x80 - s) % 256) ∧
    (∀ s : ℤ, 0 ≤ s → pyExitStatus s = s % 256) := by
  have hcode : (handleTerminate cfg st sigName n).2.1 = -(n : ℤ) := by
    rw [handleTerminate, shutdown]
    split <;> rfl
  refine ⟨?_, ?_, ?_, ?_⟩
  · rw [hcode]
    simp only [pyExitStatus]
    rw [if_pos (by omega)]
    omega
  · intro c hc1 hc2
    omega
  · intro s hs
    simp only [pyExitStatus]
    rw [if_pos hs]
  · intro s hs
    simp only [pyExitStatus]
    rw [if_neg (by omega)]

/-- Witness for `signal_exit_status` at SIGTERM (15): exit status 143. -/
theorem signal_exit_status_witness :
    1 ≤ 15 ∧ 15 ≤ 127 ∧
    pyExitStatus (handleTerminate cfgEx stEx (fun _ => "SIGTERM") 15).2.1 =
      128 + ((15 : ℕ) : ℤ) :=
  ⟨by decide, by decide,
   (signal_exit_status cfgEx stEx (fun _ => "SIGTERM") 15 (by decide) (by decide)).1⟩

/-- C10: a `SystemExit` with nonzero integer code keeps that code; integer
code 0 is a normal shutdown with code 0; a non-integer code — including
`None` from a bare `exit()` — shuts down with code 1 and the reason
`'Exiting with message: <code>'`. -/
theorem worker_system_exit_handling (detach : Bool) (i : ℤ) (s : String) :
    (i ≠ 0 → run detach (WorkerOutcome.sysExit (PyVal.pyInt i)) =
      RunResult.shutdownWith ("Exiting with non-zero exit code " ++ toString i) i) ∧
    (run detach (WorkerOutcome.sysExit (PyVal.pyInt 0)) =
      RunResult.shutdownWith "Shutting down normally" 0) ∧
    (run detach (WorkerOutcome.sysExit PyVal.pyNone) =
      RunResult.shutdownWith "Exiting with message: None" 1) ∧
    (run detach (WorkerOutcome.sysExit (PyVal.pyStr s)) =
      RunResult.shutdownWith ("Exiting with message: " ++ s) 1) := by
  refine ⟨?_, rfl, rfl, rfl⟩
  intro hi
  simp [run, hi]

/-- Witness for `worker_system_exit_handling`: `sys.exit(7)` keeps code 7. -/
theorem worker_system_exit_handling_witness :
    (7 : ℤ) ≠ 0 ∧
    run true (WorkerOutcome.sysExit (PyVal.pyInt 7)) =
      RunResult.shutdownWith ("Exiting with non-zero exit code " ++ toString (7 : ℤ)) 7 :=
  ⟨by decide, (worker_system_exit_handling true 7 "x").1 (by decide)⟩

theorem startFinish_shutdownComplete (cfg : DaemonConfig) (st : DaemonState)
    (w : World) (o : StartOracle) (evs : List Event) (outcome : WorkerOutcome) :
    (startFinish cfg st w o evs outcome).2.1.shutdownComplete = st.shutdownComplete := by
  rw [startFinish]
  by_cases h : cfg.pidFile.isSome <;> simp [h]


theorem startMain_shutdownComplete (cfg : DaemonConfig) (st : DaemonState)
    (w : World) (o : StartOracle) (reloadEnv : Bool) (outcome : WorkerOutcome)
    (evs0 : List Event) :
    (startMain cfg st w o reloadEnv outcome evs0).2.1.shutdownComplete
      = st.shutdownComplete := by
  cases hr : (readPidFile cfg w).1 with
  | some pid => simp [startMain, hr]
  | none =>
    cases he : o.envError with
    | some e => simp [startMain, hr, he]
    | none =>
      by_cases hdet : st.detach = true
      · cases hp : o.detachParentExit with
        | some code => simp [startMain, hr, he, hdet, hp]
        | none => simp [startMain, hr, he, hdet, hp, startFinish_shutdownComplete]
      · simp [startMain, hr, he, hdet, startFinish_shutdownComplete]

theorem start_shutdownComplete (cfg : DaemonConfig) (st : DaemonState) (w : World)
    (o : StartOracle) (debug reloadEnv : Bool) (outcome : WorkerOutcome) :
    (start cfg st w o debug reloadEnv outcome).2.1.shutdownComplete
        = st.shutdownComplete ∨
      (start cfg st w o debug reloadEnv outcome).2.1.shutdownComplete = true := by
  rw [start]
  split
  · exact Or.inl rfl
  · split <;> split
    · split
      · exact Or.inl rfl
      · split
        · right
          simp only [shutdown]
          split
          · next h => simpa using h
          · rfl
        · exact Or.inl (startMain_shutdownComplete ..)
    · exact Or.inl (startMain_shutdownComplete ..)
    · split
      · exact Or.inl rfl
      · split
        · right
          simp only [shutdown]
          split
          · next h => simpa using h
          · rfl
        · exact Or.inl (startMain_shutdownComplete ..)
    · exact Or.inl (startMain_shutdownComplete ..)

/-- C6: the shutdown-complete flag starts `false`; a `_shutdown` call
always leaves it `true` (the only transition ever performed is
false-to-true, at the end of a first completed shutdown, where the
callback and PID-file cleanup run); once `true`, a further `_shutdown`
exits with the given code without invoking the callback or closing the PID
file and leaves the state unchanged; and `_handle_terminate` and `start`
never reset the flag. -/
theorem shutdown_latch (cfg : DaemonConfig) (st : DaemonState)
    (message : Option String) (code : ℤ) (d dn : Bool) (sigName : ℕ → String)
    (n : ℕ) (w : World) (o : StartOracle) (debug reloadEnv : Bool)
    (outcome : WorkerOutcome) :
    (initDaemonState d dn).shutdownComplete = false ∧
    (shutdown cfg st message code).1.shutdownComplete = true ∧
    (st.shutdownComplete = true → shutdown cfg st message code = (st, code, [])) ∧
    (st.shutdownComplete = false →
      (shutdown cfg st message code).2.2 =
        (if cfg.hasShutdownCallback then [Event.shutdownCallback message code] else [])
          ++ (if cfg.pidFile.isSome then [Event.closePidFile] else [])) ∧
    (handleTerminate cfg st sigName n).1.shutdownComplete = true ∧
    ((start cfg st w o debug reloadEnv outcome).2.1.shutdownComplete
        = st.shutdownComplete ∨
      (start cfg st w o debug reloadEnv outcome).2.1.shutdownComplete = true) := by
  refine ⟨rfl, ?_, ?_, ?_, ?_, start_shutdownComplete ..⟩
  · rw [shutdown]
    split
    · next h => simpa using h
    · rfl
  · intro h
    rw [shutdown, if_pos h]
  · intro h
    rw [shutdown, if_neg (by simp [h])]
  · rw [handleTerminate, shutdown]
    split
    · next h => simpa using h
    · rfl

/-- Witness for `shutdown_latch`: a second `_shutdown` after a completed
one does nothing but exit with the given code. -/
theorem shutdown_latch_witness :
    ({ pidFd := none, shutdownComplete := true, detach := false }
        : DaemonState).shutdownComplete = true ∧
    shutdown cfgEx { pidFd := none, shutdownComplete := true, detach := false }
        (some "again") 5 =
      ({ pidFd := none, shutdownComplete := true, detach := false }, 5, []) :=
  ⟨rfl,
   (shutdown_latch cfgEx { pidFd := none, shutdownComplete := true, detach := false }
     (some "again") 5 true true (fun _ => "SIG") 15 wLive
     { ppid := 1, orphanRaises := false, ppidAliveAfterOrphan := false,
       envError := none, detachParentExit := none, currentPid := 42,
       pidFd := 3 } false false WorkerOutcome.completes).2.2.1 rfl⟩

/-- C1: with a worker defined and a PID file recording a live process, a
(non-reload, non-debug) `start` only prints the `'<name> already running
with PID <pid>'` WARNING and returns: no environment setup, no detachment,
no worker run, no ERROR, and both the daemon state and the world are
unchanged. -/
theorem start_already_running (cfg : DaemonConfig) (st : DaemonState) (w : World)
    (o : StartOracle) (outcome : WorkerOutcome) (path : String)
    (content : List Char) (pid : ℤ)
    (hw : cfg.hasWorker = true) (hp : cfg.pidFile = some path)
    (hc : w.pidFileContent = some content) (hparse : pyIntParse content = some pid)
    (halive : w.pidExists pid = true) :
    start cfg st w o false false outcome =
      (StartResult.returned, st, w,
       [Event.echoWarning (cfg.name ++ " already running with PID " ++ toString pid)]) ∧
    Event.setupEnvironment ∉ (start cfg st w o false false outcome).2.2.2 ∧
    Event.detachProcess ∉ (start cfg st w o false false outcome).2.2.2 ∧
    Event.runWorker ∉ (start cfg st w o false false outcome).2.2.2 ∧
    (∀ m, Event.echoError m ∉ (start cfg st w o false false outcome).2.2.2) := by
  have hread : readPidFile cfg w = (some pid, w, []) :=
    (read_pid_file_spec cfg w).2.2.2.2 path content pid hp hc hparse halive
  have hmain : start cfg st w o false false outcome =
      (StartResult.returned, st, w,
       [Event.echoWarning (cfg.name ++ " already running with PID " ++ toString pid)]) := by
    rw [start, if_neg (by simp [hw])]
    simp [startMain, hread]
  refine ⟨hmain, ?_, ?_, ?_, ?_⟩ <;> simp [hmain]

/-- A concrete start oracle for witnesses. -/
def oEx : StartOracle :=
  { ppid := 1, orphanRaises := false, ppidAliveAfterOrphan := false,
    envError := none, detachParentExit := none, currentPid := 43, pidFd := 3 }

/-- Witness for `start_already_running`: starting over the live PID 42. -/
theorem start_already_running_witness :
    cfgEx.hasWorker = true ∧ wLive.pidExists 42 = true ∧
    start cfgEx stEx wLive oEx false false WorkerOutcome.completes =
      (StartResult.returned, stEx, wLive,
       [Event.echoWarning (cfgEx.name ++ " already running with PID " ++
         toString (42 : ℤ))]) :=
  ⟨rfl, by decide,
   (start_already_running cfgEx stEx wLive oEx WorkerOutcome.completes
     "/tmp/foo.pid" ['4', '2', '\n'] 42 rfl rfl rfl (by decide) (by decide)).1⟩

theorem readPidFile_events (cfg : DaemonConfig) (w : World) :
    ∀ e ∈ (readPidFile cfg w).2.2,
      e = Event.removePidFile ∨ ∃ m, e = Event.echoWarning m := by
  intro e he
  cases hp : cfg.pidFile with
  | none => simp [readPidFile, hp] at he
  | some path =>
    cases hc : w.pidFileContent with
    | none => simp [readPidFile, hp, hc] at he
    | some content =>
      cases hparse : pyIntParse content with
      | none =>
        simp only [readPidFile, hp, hc, hparse, List.mem_cons,
          List.not_mem_nil, or_false] at he
        rcases he with h | h
        · exact Or.inr ⟨_, h⟩
        · exact Or.inl h
      | some pid =>
        by_cases halive : w.pidExists pid = true
        · simp [readPidFile, hp, hc, hparse, halive] at he
        · simp only [readPidFile, hp, hc, hparse, halive, Bool.false_eq_true,
            if_false, ite_false, List.mem_cons, List.not_mem_nil, or_false] at he
          exact Or.inl he

theorem stop_never_raises (cfg : DaemonConfig) (w : World) (o : StopOracle)
    (timeout : Option ℕ) (force : Bool) (path : String)
    (hp : cfg.pidFile = some path) :
    ∀ m, (stop cfg w o timeout force).1 ≠ StopResult.raisedError m := by
  intro m
  cases hr : (readPidFile cfg w).1 with
  | none => simp [stop, hp, hr]
  | some pid =>
    cases hke : o.termKillError with
    | some e => simp [stop, hp, hr, hke]
    | none =>
      by_cases ha : o.aliveAfterTerm = false
      · simp [stop, hp, hr, hke, ha]
      · by_cases hf : force = false
        · simp [stop, hp, hr, hke, ha, hf]
        · cases hkk : o.killKillError with
          | some e => simp [stop, hp, hr, hke, ha, hf, hkk]
          | none =>
            by_cases hak : o.aliveAfterKill = false <;>
              simp [stop, hp, hr, hke, ha, hf, hkk, hak]

/-- C3: `stop` raises a configuration error exactly when no PID file is
configured; an absent or stale PID file yields a warning and success;
otherwise SIGTERM is sent and the process is awaited for the effective
timeout (the given one, falling back to `stop_timeout` when not given);
if the process survives, FAILED and a timeout ERROR are reported and the
call fails, sending SIGKILL only when `force` is set, in which case a
second wait happens and a distinct error is reported if the process still
survives. -/
theorem stop_behaviour (cfg : DaemonConfig) (w : World) (o : StopOracle)
    (timeout : Option ℕ) (force : Bool) (path : String) (pid : ℤ) (k : ℕ) :
    (cfg.pidFile = none →
      stop cfg w o timeout force =
        (StopResult.raisedError "Cannot stop daemon without PID file", w, [])) ∧
    (cfg.pidFile = some path →
      ∀ m, (stop cfg w o timeout force).1 ≠ StopResult.raisedError m) ∧
    (effTimeout none cfg.stopTimeout = cfg.stopTimeout ∧
      effTimeout (some (k + 1)) cfg.stopTimeout = k + 1) ∧
    (cfg.pidFile = some path → (readPidFile cfg w).1 = none →
      stop cfg w o timeout force =
        (StopResult.ok, (readPidFile cfg w).2.1,
         (readPidFile cfg w).2.2 ++
           [Event.echoWarning (cfg.name ++ " is not running")])) ∧
    (cfg.pidFile = some path → (readPidFile cfg w).1 = some pid →
      o.termKillError = none → o.aliveAfterTerm = false →
      stop cfg w o timeout force =
        (StopResult.ok, (readPidFile cfg w).2.1,
         (readPidFile cfg w).2.2 ++
           [Event.echo ("Stopping " ++ cfg.name ++ " ... "),
            Event.kill pid SIGTERM,
            Event.waitForExit pid (effTimeout timeout cfg.stopTimeout),
            Event.echoOk])) ∧
    (cfg.pidFile = some path → (readPidFile cfg w).1 = some pid →
      o.termKillError = none → o.aliveAfterTerm = true → force = false →
      stop cfg w o timeout force =
        (StopResult.exited 1, (readPidFile cfg w).2.1,
         (readPidFile cfg w).2.2 ++
           [Event.echo ("Stopping " ++ cfg.name ++ " ... "),
            Event.kill pid SIGTERM,
            Event.waitForExit pid (effTimeout timeout cfg.stopTimeout),
            Event.echoFailed,
            Event.echoError ("Timed out while waiting for process (PID " ++
              toString pid ++ ") to terminate")]) ∧
      Event.kill pid SIGKILL ∉ (stop cfg w o timeout force).2.2) ∧
    (cfg.pidFile = some path → (readPidFile cfg w).1 = some pid →
      o.termKillError = none → o.aliveAfterTerm = true → force = true →
      o.killKillError = none → o.aliveAfterKill = true →
      stop cfg w o timeout force =
        (StopResult.exited 1, (readPidFile cfg w).2.1,
         (readPidFile cfg w).2.2 ++
           [Event.echo ("Stopping " ++ cfg.name ++ " ... "),
            Event.kill pid SIGTERM,
            Event.waitForExit pid (effTimeout timeout cfg.stopTimeout),
            Event.echoFailed,
            Event.echoError ("Timed out while waiting for process (PID " ++
              toString pid ++ ") to terminate"),
            Event.echo ("Killing " ++ cfg.name ++ " ... "),
            Event.kill pid SIGKILL,
            Event.waitForExit pid (effTimeout timeout cfg.stopTimeout),
            Event.echoFailed,
            Event.echoError ("Process (PID " ++ toString pid ++
              ") did not respond to SIGKILL for some reason")])) := by
  refine ⟨?_, fun hp => stop_never_raises cfg w o timeout force path hp,
    ⟨rfl, rfl⟩, ?_, ?_, ?_, ?_⟩
  · intro hp
    simp [stop, hp]
  · intro hp hr
    simp [stop, hp, hr]
  · intro hp hr hke ha
    simp [stop, hp, hr, hke, ha]
  · intro hp hr hke ha hf
    refine ⟨?_, ?_⟩
    · simp [stop, hp, hr, hke, ha, hf]
    · have hmain : (stop cfg w o timeout force).2.2 =
          (readPidFile cfg w).2.2 ++
           [Event.echo ("Stopping " ++ cfg.name ++ " ... "),
            Event.kill pid SIGTERM,
            Event.waitForExit pid (effTimeout timeout cfg.stopTimeout),
            Event.echoFailed,
            Event.echoError ("Timed out while waiting for process (PID " ++
              toString pid ++ ") to terminate")] := by
        simp [stop, hp, hr, hke, ha, hf]
      rw [hmain]
      intro hmem
      rcases List.mem_append.mp hmem with hmem | hmem
      · rcases readPidFile_events cfg w _ hmem with h | ⟨m, h⟩ <;> simp at h
      · simp [SIGTERM, SIGKILL] at hmem
  · intro hp hr hke ha hf hkk hak
    simp [stop, hp, hr, hke, ha, hf, hkk, hak]

/-- A concrete stop oracle: the process ignores both signals. -/
def oStopEx : StopOracle :=
  { termKillError := none, aliveAfterTerm := true,
    killKillError := none, aliveAfterKill := true }

/-- Witness for `stop_behaviour`: stopping the live PID 42 without force
times out, fails with exit code 1 and never sends SIGKILL. -/
theorem stop_behaviour_witness :
    cfgEx.pidFile = some "/tmp/foo.pid" ∧
    (readPidFile cfgEx wLive).1 = some 42 ∧
    (stop cfgEx wLive oStopEx none false).1 = StopResult.exited 1 ∧
    Event.kill 42 SIGKILL ∉ (stop cfgEx wLive oStopEx none false).2.2 := by
  have h := (stop_behaviour cfgEx wLive oStopEx none false "/tmp/foo.pid" 42
    0).2.2.2.2.2.1 rfl (by decide) rfl rfl rfl
  exact ⟨rfl, by decide, by rw [h.1], h.2⟩

theorem pyRound_nearest (q : ℚ) : |((pyRound q : ℤ) : ℚ) - q| ≤ 1 / 2 := by
  have hfl : (⌊q⌋ : ℚ) ≤ q := Int.floor_le q
  have hfu : q < ⌊q⌋ + 1 := Int.lt_floor_add_one q
  rw [pyRound]
  split_ifs with h1 h2 h3 <;>
  · rw [abs_le]
    push_cast
    constructor <;> linarith

theorem pyRound_nonneg {q : ℚ} (h : 0 ≤ q) : 0 ≤ pyRound q := by
  have hfl : 0 ≤ ⌊q⌋ := Int.floor_nonneg.mpr h
  rw [pyRound]
  split_ifs <;> omega

theorem formatFromMinutes_spec (m : ℤ) (hm : 0 ≤ m) :
    formatFromMinutes m = specUptimeFormat m := by
  by_cases h1 : m < 60
  · have hdiv : m / 60 = 0 := by omega
    have hmod : m % 60 = m := by omega
    simp only [formatFromMinutes, specUptimeFormat, hdiv, hmod]
    rw [if_neg (by simp), if_pos h1]
  · by_cases h2 : m < 1440
    · have hne : m / 60 ≠ 0 := by omega
      have hdays : m / 60 / 24 = 0 := by omega
      have hhR : m / 60 % 24 = m / 60 := by omega
      simp only [formatFromMinutes, specUptimeFormat, hdays, hhR]
      rw [if_pos hne, if_neg (by simp), if_neg (by omega), if_pos h2]
      simp [String.append_assoc]
    · have hne : m / 60 ≠ 0 := by omega
      have hdays : m / 60 / 24 = m / 1440 := by omega
      have hdne : m / 1440 ≠ 0 := by omega
      have hhR : m / 60 % 24 = m % 1440 / 60 := by omega
      simp only [formatFromMinutes, specUptimeFormat, hdays, hhR]
      rw [if_pos hne, if_pos hdne, if_neg (by omega), if_neg (by omega)]
      simp [String.append_assoc]

theorem pyRound_concrete :
    pyRound ((0 : ℚ) / 60) = 0 ∧ pyRound ((1000 : ℚ) / 60) = 17 ∧
    pyRound ((10000 : ℚ) / 60) = 167 ∧ pyRound ((100000 : ℚ) / 60) = 1667 ∧
    pyRound ((1000000 : ℚ) / 60) = 16667 := by
  have h0 : ⌊(0 : ℚ) / 60⌋ = 0 := by norm_num
  have h1 : ⌊(1000 : ℚ) / 60⌋ = 16 := by rw [Int.floor_eq_iff]; norm_num
  have h2 : ⌊(10000 : ℚ) / 60⌋ = 166 := by rw [Int.floor_eq_iff]; norm_num
  have h3 : ⌊(100000 : ℚ) / 60⌋ = 1666 := by rw [Int.floor_eq_iff]; norm_num
  have h4 : ⌊(1000000 : ℚ) / 60⌋ = 16666 := by rw [Int.floor_eq_iff]; norm_num
  refine ⟨?_, ?_, ?_, ?_, ?_⟩ <;>
    · simp only [pyRound]
      first
      | (rw [h0]; norm_num)
      | (rw [h1]; norm_num)
      | (rw [h2]; norm_num)
      | (rw [h3]; norm_num)
      | (rw [h4]; norm_num)

/-- C5: the uptime formatter rounds the seconds to the nearest whole
minute (within half a minute) and carries through hours and days, omitting
the hour part below one hour and the day part below one day; in particular
0, 1000, 10000, 100000 and 1000000 seconds format as "0m", "17m",
"2h 47m", "1d 3h 47m" and "11d 13h 47m". -/
theorem uptime_formatting :
    format_elapsed_time 0 = "0m" ∧
    format_elapsed_time 1000 = "17m" ∧
    format_elapsed_time 10000 = "2h 47m" ∧
    format_elapsed_time 100000 = "1d 3h 47m" ∧
    format_elapsed_time 1000000 = "11d 13h 47m" ∧
    (∀ s : ℚ, 0 ≤ s →
      |((pyRound (s / 60) : ℤ) : ℚ) - s / 60| ≤ 1 / 2 ∧
      format_elapsed_time s = specUptimeFormat (pyRound (s / 60))) := by
  obtain ⟨p0, p1, p2, p3, p4⟩ := pyRound_concrete
  refine ⟨?_, ?_, ?_, ?_, ?_, ?_⟩
  · rw [format_elapsed_time, p0]; decide
  · rw [format_elapsed_time, p1]; decide
  · rw [format_elapsed_time, p2]; decide
  · rw [format_elapsed_time, p3]; decide
  · rw [format_elapsed_time, p4]; decide
  · intro s hs
    refine ⟨pyRound_nearest (s / 60), ?_⟩
    rw [format_elapsed_time]
    exact formatFromMinutes_spec _ (pyRound_nonneg (by positivity))

/-- Witness for `uptime_formatting` at 0 seconds. -/
theorem uptime_formatting_witness :
    (0 : ℚ) ≤ 0 ∧
    format_elapsed_time 0 = specUptimeFormat (pyRound ((0 : ℚ) / 60)) :=
  ⟨le_refl 0, (uptime_formatting.2.2.2.2.2 0 (le_refl 0)).2⟩

/-- An oracle in which only the directory-creation step of environment
setup fails. -/
def envOracleDirs : EnvOracle :=
  { chrootError := none, chdirError := none,
    setupDirsError := some "Permission denied", umaskError := none,
    setuidgidError := none }

/-- An oracle in which every environment-setup step succeeds. -/
def envOracleOk : EnvOracle :=
  { chrootError := none, chdirError := none, setupDirsError := none,
    umaskError := none, setuidgidError := none }

/-- C7 counterexample: when directory creation for the pid/stdout/stderr
files fails, `_setup_environment` propagates the raw `OSError` unchanged —
it is not re-raised as a `DaemonError`, contradicting the claim that no
step lets a raw low-level OS error reach the caller. -/
theorem setup_environment_raw_oserror :
    setup_environment cfgEx envOracleDirs =
      Except.error (PyError.osError "Permission denied") ∧
    PyError.osError "Permission denied" ≠
      PyError.daemonError "Permission denied" :=
  ⟨rfl, by decide⟩

/-- C7 amended: failures of the chroot, work-directory chdir, umask and
setuid/setgid steps are re-raised as `DaemonError`s naming the step;
failures of the directory-creation step (`_setup_dirs`) propagate as raw
OS errors; with no failures the setup succeeds. -/
theorem setup_environment_error_wrapping (cfg : DaemonConfig) (o : EnvOracle)
    (e : String) :
    (cfg.chrootDir.isSome = true → o.chrootError = some e →
      setup_environment cfg o =
        Except.error
          (PyError.daemonError ("Unable to change root directory (" ++ e ++ ")"))) ∧
    (o.chrootError = none → o.chdirError = some e →
      setup_environment cfg o =
        Except.error
          (PyError.daemonError ("Unable to change working directory (" ++ e ++ ")"))) ∧
    (o.chrootError = none → o.chdirError = none → o.setupDirsError = some e →
      setup_environment cfg o = Except.error (PyError.osError e)) ∧
    (o.chrootError = none → o.chdirError = none → o.setupDirsError = none →
      o.umaskError = some e →
      setup_environment cfg o =
        Except.error
          (PyError.daemonError ("Unable to change file creation mask (" ++ e ++ ")"))) ∧
    (o.chrootError = none → o.chdirError = none → o.setupDirsError = none →
      o.umaskError = none → o.setuidgidError = some e →
      setup_environment cfg o =
        Except.error
          (PyError.daemonError ("Unable to setuid or setgid (" ++ e ++ ")"))) ∧
    (o.chrootError = none → o.chdirError = none → o.setupDirsError = none →
      o.umaskError = none → o.setuidgidError = none →
      setup_environment cfg o = Except.ok ()) := by
  refine ⟨?_, ?_, ?_, ?_, ?_, ?_⟩
  · intro hc h1
    simp [setup_environment, hc, h1]
  · intro h1 h2
    simp [setup_environment, h1, h2]
  · intro h1 h2 h3
    simp [setup_environment, h1, h2, h3]
  · intro h1 h2 h3 h4
    simp [setup_environment, h1, h2, h3, h4]
  · intro h1 h2 h3 h4 h5
    simp [setup_environment, h1, h2, h3, h4, h5]
  · intro h1 h2 h3 h4 h5
    simp [setup_environment, h1, h2, h3, h4, h5]

/-- Witness for `setup_environment_error_wrapping`: a failing umask call
is wrapped with the step-naming message. -/
theorem setup_environment_error_wrapping_witness :
    setup_environment cfgEx
        { chrootError := none, chdirError := none, setupDirsError := none,
          umaskError := some "boom", setuidgidError := none } =
      Except.error
        (PyError.daemonError ("Unable to change file creation mask (" ++
          "boom" ++ ")")) :=
  (setup_environment_error_wrapping cfgEx
    { chrootError := none, chdirError := none, setupDirsError := none,
      umaskError := some "boom", setuidgidError := none }
    "boom").2.2.2.1 rfl rfl rfl rfl

theorem list_actions_foldl (L : List ClassMethod) (acc : List String) :
    L.foldl
      (fun actions m =>
        if m.callable && m.exposed then
          (if hyphenate m.name ∈ actions then actions
           else actions ++ [hyphenate m.name])
        else actions) acc
    = acc ++ dedupAgainst acc
        ((L.filter (fun m => m.callable && m.exposed)).map
          (fun m => hyphenate m.name)) := by
  induction L generalizing acc with
  | nil => simp [dedupAgainst]
  | cons m ms ih =>
    rw [List.foldl_cons]
    by_cases hme : (m.callable && m.exposed) = true
    · rw [if_pos hme]
      by_cases hmem : hyphenate m.name ∈ acc
      · rw [if_pos hmem, ih]
        simp [List.filter_cons, hme, dedupAgainst, hmem]
      · rw [if_neg hmem, ih]
        simp [List.filter_cons, hme, dedupAgainst, hmem]
    · rw [if_neg hme, ih]
      simp [List.filter_cons, hme]

theorem list_actions_foldl_nodup (L : List ClassMethod) (acc : List String)
    (h : acc.Nodup) :
    (L.foldl
      (fun actions m =>
        if m.callable && m.exposed then
          (if hyphenate m.name ∈ actions then actions
           else actions ++ [hyphenate m.name])
        else actions) acc).Nodup := by
  induction L generalizing acc with
  | nil => simpa
  | cons m ms ih =>
    rw [List.foldl_cons]
    by_cases hme : (m.callable && m.exposed) = true
    · rw [if_pos hme]
      by_cases hmem : hyphenate m.name ∈ acc
      · rw [if_pos hmem]
        exact ih acc h
      · rw [if_neg hmem]
        exact ih _ (by simp [List.nodup_append, h, hmem])
    · rw [if_neg hme]
      exact ih acc h

/-- C9 counterexample: a class declaring the exposed methods `zeta` then
`alpha` (after the built-ins).  `list_actions` iterates `dir(cls)`, which
is alphabetical, so it lists `alpha` before `zeta` — not declaration
order. -/
theorem list_actions_not_declaration_order :
    list_actions
        { methods :=
            [{ name := "start", exposed := true, callable := true },
             { name := "stop", exposed := true, callable := true },
             { name := "restart", exposed := true, callable := true },
             { name := "status", exposed := true, callable := true },
             { name := "zeta", exposed := true, callable := true },
             { name := "alpha", exposed := true, callable := true }] } =
      ["start", "stop", "restart", "status", "alpha", "zeta"] ∧
    declarationOrderActions
        { methods :=
            [{ name := "start", exposed := true, callable := true },
             { name := "stop", exposed := true, callable := true },
             { name := "restart", exposed := true, callable := true },
             { name := "status", exposed := true, callable := true },
             { name := "zeta", exposed := true, callable := true },
             { name := "alpha", exposed := true, callable := true }] } =
      ["start", "stop", "restart", "status", "zeta", "alpha"] ∧
    list_actions
        { methods :=
            [{ name := "start", exposed := true, callable := true },
             { name := "stop", exposed := true, callable := true },
             { name := "restart", exposed := true, callable := true },
             { name := "status", exposed := true, callable := true },
             { name := "zeta", exposed := true, callable := true },
             { name := "alpha", exposed := true, callable := true }] } ≠
      declarationOrderActions
        { methods :=
            [{ name := "start", exposed := true, callable := true },
             { name := "stop", exposed := true, callable := true },
             { name := "restart", exposed := true, callable := true },
             { name := "status", exposed := true, callable := true },
             { name := "zeta", exposed := true, callable := true },
             { name := "alpha", exposed := true, callable := true }] } :=
  ⟨by decide, by decide, by decide⟩

/-- C9 amended: the action list is exactly the four built-ins in order,
followed by the hyphenated names of the exposed callable methods in
alphabetical order of method name (the order `dir` yields), first
occurrences only, with no duplicates. -/
theorem list_actions_order (cls : DaemonClass) :
    list_actions cls =
      builtinActions ++ dedupAgainst builtinActions (sortedExposedActions cls) ∧
    (list_actions cls).Nodup ∧
    (list_actions cls).take 4 = builtinActions := by
  have h1 : list_actions cls =
      builtinActions ++ dedupAgainst builtinActions (sortedExposedActions cls) :=
    list_actions_foldl (dirMethods cls) builtinActions
  refine ⟨h1, list_actions_foldl_nodup (dirMethods cls) builtinActions (by decide), ?_⟩
  rw [h1]
  exact List.take_left' rfl
